import Mathlib

/-!
Verification of the Employee Playbook entitlement model.

Shallow embedding of `src/assets/accessControl.js` and the storage helpers of
`src/assets/authUI.js`.

Modelling conventions:
* JS strings are Lean `String`; `s.startsWith m` is prefix on the character
  lists (`String.data`).
* A JS value that may be `null`/`undefined` is an `Option`; an absent object
  field is `none`.  JS truthiness for optional strings: `none` and `some ""`
  are falsy.
* JS `Set` values are modelled as `List String` in insertion order; the only
  operation the code uses on them is membership (`has`).
* User records keep exactly the string fields the code reads (`id`, `userId`,
  `email`, `planTier`, `tier`, `plan`) plus the optional `entitlements`
  array; a field holding a non-string (resp. non-array) JS value is out of
  scope of the claims and is modelled as absent.
* `localStorage` restricted to the single profile key is an `Option String`
  state threaded through the storage functions; `JSON.parse` (which can
  throw) and `JSON.stringify` are the environment and are passed in as
  explicit function parameters (`Except` models the thrown `SyntaxError`).
* `Array.prototype.sort` with the comparator
  `(a, b) => (b.match?.length || 0) - (a.match?.length || 0)` is a stable
  descending sort by match length; it is modelled by `List.insertionSort`
  with the relation `byMatchLen` (Mathlib insertion sort is stable, and the
  comparator orders `a` no later than `b` exactly when
  `b.match.length <= a.match.length`).
-/

namespace TEP

/-- JS truthiness of an optional string: `null`/`undefined` and `""` are
falsy, every other string is truthy. -/
def strTruthy : Option String → Bool
  | none => false
  | some s => !(s == "")

/-- User record shape read by `accessControl.js` (see the doc comment above
`getUserTier` in the source). -/
structure User where
  id : Option String
  userId : Option String
  email : Option String
  planTier : Option String
  tier : Option String
  plan : Option String
  entitlements : Option (List String)
deriving DecidableEq

/-- The list `Object.values(TIERS)` from the source: `["free", "core", "edge"]`. -/
def TIERS_values : List String := ["free", "core", "edge"]

/-- A chain `a || b || ... || d` of JS string options: the first truthy
entry, else the default `d`. -/
def firstTruthy : List (Option String) → String → String
  | [], d => d
  | o :: rest, d => if strTruthy o then o.getD "" else firstTruthy rest d

/-- The local `tier` in `getUserTier`:
`user?.planTier || user?.tier || user?.plan || TIERS.FREE`. -/
def rawTier (user : Option User) : String :=
  firstTruthy [user.bind User.planTier, user.bind User.tier, user.bind User.plan] "free"

/-- Embeds `getUserTier` from `accessControl.js` (lines 163-168). -/
def getUserTier (user : Option User) : String :=
  let tier := rawTier user
  if tier == "strategic_edge" || tier == "strategic-edge" then "edge"
  else if TIERS_values.contains tier then tier
  else "free"

/-- Embeds `isLoggedIn` from `accessControl.js` (lines 170-172):
`Boolean(user?.id || user?.userId || user?.email)`. -/
def isLoggedIn (user : Option User) : Bool :=
  strTruthy (user.bind User.id) || strTruthy (user.bind User.userId) ||
    strTruthy (user.bind User.email)

/-- Embeds `DEFAULT_ENTITLEMENTS` from `accessControl.js` (lines 78-111), as a JS
object lookup: `some` on the three tier keys, `none` otherwise. -/
def DEFAULT_ENTITLEMENTS (t : String) : Option (List String) :=
  if t == "free" then
    some ["dark_mode", "search", "downloads"]
  else if t == "core" then
    some ["dark_mode", "search", "downloads", "save_to_my_playbook",
          "template_bank", "script_library", "strategy_journal"]
  else if t == "edge" then
    some ["dark_mode", "search", "downloads", "save_to_my_playbook",
          "template_bank", "script_library", "situation_simulator",
          "strategy_journal", "voice_to_text_journal", "edge_briefing",
          "coach_ai", "advanced_template_bank", "office_politics_mapping",
          "exit_and_reputation_plan"]
  else none

/-- Embeds `getEntitlements` from `accessControl.js` (lines 177-188).  The explicit
override wins when it is an array with positive length, otherwise
`DEFAULT_ENTITLEMENTS[tier] || []`. -/
def getEntitlements (user : Option User) : List String :=
  match user.bind User.entitlements with
  | some explicit =>
      if explicit.length > 0 then explicit
      else (DEFAULT_ENTITLEMENTS (getUserTier user)).getD []
  | none => (DEFAULT_ENTITLEMENTS (getUserTier user)).getD []

/-- Embeds `hasFeature` from `accessControl.js` (lines 190-194):
`if (!featureKey) return false; return getEntitlements(user).has(featureKey)`. -/
def hasFeature (user : Option User) (featureKey : Option String) : Bool :=
  if !strTruthy featureKey then false
  else (getEntitlements user).contains (featureKey.getD "")

/-- Embeds `TIER_RANK` from `accessControl.js` (lines 145-149), as a JS object
lookup. -/
def TIER_RANK (t : String) : Option Nat :=
  if t == "free" then some 1
  else if t == "core" then some 2
  else if t == "edge" then some 3
  else none

/-- The JS expression `TIER_RANK[t] || 0`. -/
def rankOr0 (t : String) : Nat := (TIER_RANK t).getD 0

/-- Embeds `meetsTier` from `accessControl.js` (lines 199-205). -/
def meetsTier (user : Option User) (minTier : Option String) : Bool :=
  if !strTruthy minTier then true
  else if !isLoggedIn user then false
  else decide (rankOr0 (getUserTier user) ≥ rankOr0 (minTier.getD ""))

/-- One entry of `ROUTE_POLICY`: `matchS` is the `match` field (a Lean
keyword, hence the renaming), `minTier` its `minTier` field. -/
structure Policy where
  matchS : String
  minTier : Option String
deriving DecidableEq

/-- Embeds `ROUTE_POLICY` from `accessControl.js` (lines 118-140), in declaration
order. -/
def ROUTE_POLICY : List Policy :=
  [⟨"/", none⟩,
   ⟨"/start-here", none⟩,
   ⟨"/pricing", none⟩,
   ⟨"/help-centre", none⟩,
   ⟨"/sign-in", none⟩,
   ⟨"/create-account", none⟩,
   ⟨"/dashboard", some "free"⟩,
   ⟨"/my-playbook", some "core"⟩,
   ⟨"/tools/checklist-", some "free"⟩,
   ⟨"/tools/framework-", some "core"⟩,
   ⟨"/tools/assessment-", some "core"⟩,
   ⟨"/tools/form-", some "core"⟩,
   ⟨"/edge", some "edge"⟩,
   ⟨"/coach", some "edge"⟩]

/-- JS `s.startsWith(m)`: `m.data` is a list prefix of `s.data`. -/
def jsStartsWith (s m : String) : Bool := m.data.isPrefixOf s.data

/-- The filter predicate of `getRoutePolicy`:
`pathname === p.match || pathname.startsWith(p.match)`. -/
def matchesPath (pathname : String) (p : Policy) : Bool :=
  pathname == p.matchS || jsStartsWith pathname p.matchS

/-- Order used by the sort in `getRoutePolicy`: the comparator
`(a, b) => (b.match?.length || 0) - (a.match?.length || 0)` places `a` no
later than `b` exactly when `b.match.length <= a.match.length`. -/
def byMatchLen (a b : Policy) : Prop := b.matchS.length ≤ a.matchS.length

instance : DecidableRel byMatchLen := fun _ _ => Nat.decLe _ _

instance : IsTotal Policy byMatchLen :=
  ⟨by intro a b; simp only [byMatchLen]; exact Nat.le_total _ _⟩

instance : IsTrans Policy byMatchLen :=
  ⟨by intro a b c hab hbc; simp only [byMatchLen] at *; exact Nat.le_trans hbc hab⟩

/-- Embeds `getRoutePolicy` from `accessControl.js` (lines 207-216): filter the
matching policies, sort them by descending match length, take the first
(`matches[0] || null`; policy objects are truthy, so `|| null` only fires on
the empty list, which `head?` models). -/
def getRoutePolicy (pathname : String) : Option Policy :=
  if pathname == "" then none
  else ((ROUTE_POLICY.filter (matchesPath pathname)).insertionSort byMatchLen).head?

/-- Embeds `canAccessRoute` from `accessControl.js` (lines 218-222). -/
def canAccessRoute (user : Option User) (pathname : String) : Bool :=
  match getRoutePolicy pathname with
  | none => true
  | some policy => meetsTier user policy.minTier

/-- The `cta` object of a lock state. -/
structure Cta where
  label : String
  href : String
deriving DecidableEq

/-- The object returned by `getLockStateForFeature`; fields that a branch of
the source does not set are `none`. -/
structure LockState where
  locked : Bool
  reason : Option String
  cta : Option Cta
  requiredTier : Option String
  currentTier : Option String
deriving DecidableEq

/-- Embeds `guessRequiredTier` from `accessControl.js` (lines 263-285). -/
def guessRequiredTier (featureKey : String) : String :=
  if ["edge_briefing", "coach_ai", "advanced_template_bank",
      "office_politics_mapping", "exit_and_reputation_plan",
      "voice_to_text_journal", "situation_simulator"].contains featureKey then
    "edge"
  else if ["save_to_my_playbook", "template_bank", "script_library",
           "strategy_journal"].contains featureKey then
    "core"
  else
    "free"

/-- Embeds `getLockStateForFeature` from `accessControl.js` (lines 227-261).  The
source defaults `minTier` to `null`; callers here always pass it
explicitly. -/
def getLockStateForFeature (user : Option User) (featureKey : Option String)
    (minTier : Option String) : LockState :=
  if !isLoggedIn user then
    ⟨true, some "sign_in_required", some ⟨"Sign in to continue", "/sign-in"⟩,
     none, none⟩
  else if strTruthy minTier && !meetsTier user minTier then
    ⟨true, some "upgrade_required", some ⟨"Upgrade to unlock", "/pricing"⟩,
     minTier, some (getUserTier user)⟩
  else if strTruthy featureKey && !hasFeature user featureKey then
    ⟨true, some "not_entitled", some ⟨"Upgrade to unlock", "/pricing"⟩,
     some (guessRequiredTier (featureKey.getD "")), some (getUserTier user)⟩
  else
    ⟨false, none, none, none, none⟩

/-- JSON values, the possible results of `JSON.parse`. -/
inductive JsValue where
  | jsNull : JsValue
  | jsBool : Bool → JsValue
  | jsNum : Int → JsValue
  | jsStr : String → JsValue
  | jsArr : List JsValue → JsValue
  | jsObj : List (String × JsValue) → JsValue

/-- JS truthiness of a JSON value. -/
def jsTruthy : JsValue → Bool
  | .jsNull => false
  | .jsBool b => b
  | .jsNum n => !(n == 0)
  | .jsStr s => !(s == "")
  | .jsArr _ => true
  | .jsObj _ => true

/-- The JS test `typeof v === "object"` for a JSON value: true for `null`, arrays and
objects. -/
def isObjType : JsValue → Bool
  | .jsNull => true
  | .jsArr _ => true
  | .jsObj _ => true
  | _ => false

/-- Embeds `getStoredUser` from `authUI.js` (lines 40-49).  `store` is the value at
the profile key (`none` = key absent); `jsonParse` models `JSON.parse`,
whose thrown `SyntaxError` is an `Except.error` and is caught by the
try/catch (the function returns `none` instead of propagating it). -/
def getStoredUser (store : Option String)
    (jsonParse : String → Except String JsValue) : Option JsValue :=
  match store with
  | none => none
  | some raw =>
    if raw == "" then none
    else
      match jsonParse raw with
      | .error _ => none
      | .ok parsed => if jsTruthy parsed && isObjType parsed then some parsed else none

/-- Embeds `setStoredUser` from `authUI.js` (lines 51-61), as a transformer of the
profile-key state (storage writes are modelled as always succeeding; the
caught quota exception is out of scope).  A falsy `user` removes the key. -/
def setStoredUser (_store : Option String) (jsonStringify : JsValue → String)
    (user : Option JsValue) : Option String :=
  match user with
  | none => none
  | some v => if !jsTruthy v then none else some (jsonStringify v)

/-- Embeds `clearStoredUser` from `authUI.js` (lines 63-69): removes the key. -/
def clearStoredUser (_store : Option String) : Option String := none

/-- A user value `{tier: "core"}`: a tier field but no identity marker. -/
def userTierCoreAnon : User := ⟨none, none, none, none, some "core", none, none⟩

/-- A user value with no fields at all. -/
def userAnonNoTier : User := ⟨none, none, none, none, none, none, none⟩

/-- A signed-in Core user `{id: "u1", tier: "core"}`. -/
def userCoreSignedIn : User := ⟨some "u1", none, none, none, some "core", none, none⟩

/-- Follows the wording of claim C3: the ranking Free=1, Core=2, Edge=3,
with unrecognized tier names ranked 0 (to be compared with the rank lookup
`rankOr0` the code uses). -/
def rankSpec (t : String) : Nat :=
  if t == "free" then 1 else if t == "core" then 2 else if t == "edge" then 3 else 0

theorem rankOr0_eq_rankSpec (t : String) : rankOr0 t = rankSpec t := by
  by_cases h1 : t == "free" <;> by_cases h2 : t == "core" <;>
    by_cases h3 : t == "edge" <;>
    simp [rankOr0, TIER_RANK, rankSpec, h1, h2, h3]

theorem isLoggedIn_eq_false_of_no_markers (user : Option User)
    (hid : user.bind User.id = none) (huid : user.bind User.userId = none)
    (hem : user.bind User.email = none) : isLoggedIn user = false := by
  simp [isLoggedIn, hid, huid, hem, strTruthy]

/-- C1: a user value with no identity marker (no `id`, `userId` or `email`
field) always gets a locked state with reason `sign_in_required` from
`getLockStateForFeature`, for every feature key and every `minTier`, and
never `upgrade_required` or `not_entitled`. -/
theorem c1_anonymous_always_sign_in_required (user : Option User)
    (featureKey minTier : Option String)
    (hid : user.bind User.id = none) (huid : user.bind User.userId = none)
    (hem : user.bind User.email = none) :
    (getLockStateForFeature user featureKey minTier).locked = true ∧
    (getLockStateForFeature user featureKey minTier).reason = some "sign_in_required" ∧
    (getLockStateForFeature user featureKey minTier).reason ≠ some "upgrade_required" ∧
    (getLockStateForFeature user featureKey minTier).reason ≠ some "not_entitled" := by
  have hlog := isLoggedIn_eq_false_of_no_markers user hid huid hem
  simp [getLockStateForFeature, hlog]

theorem c1_witness :
    (getLockStateForFeature (some userTierCoreAnon) (some "downloads") (some "core")).locked = true ∧
    (getLockStateForFeature (some userTierCoreAnon) (some "downloads") (some "core")).reason
      = some "sign_in_required" ∧
    (getLockStateForFeature (some userTierCoreAnon) (some "downloads") (some "core")).reason
      ≠ some "upgrade_required" ∧
    (getLockStateForFeature (some userTierCoreAnon) (some "downloads") (some "core")).reason
      ≠ some "not_entitled" :=
  c1_anonymous_always_sign_in_required (some userTierCoreAnon)
    (some "downloads") (some "core") rfl rfl rfl

/-- C2 counterexample: the user value `{tier: "core"}` carries no identity
marker, so `isLoggedIn` is false, yet `getUserTier` returns `"core"`, not
the Free tier the claim requires. -/
theorem c2_counterexample :
    isLoggedIn (some userTierCoreAnon) = false ∧
    getUserTier (some userTierCoreAnon) ≠ "free" := by decide

/-- C2 (amended): for every user value with no identity markers,
`isLoggedIn` is false; `getUserTier` ignores identity markers entirely — it
returns Free when no `planTier`/`tier`/`plan` field is present, and returns
the tier itself whenever the resolved tier field is a recognized tier
name. -/
theorem c2_amended_anonymous_tier (user : Option User)
    (hid : user.bind User.id = none) (huid : user.bind User.userId = none)
    (hem : user.bind User.email = none) :
    isLoggedIn user = false ∧
    ((user.bind User.planTier = none ∧ user.bind User.tier = none ∧
        user.bind User.plan = none) → getUserTier user = "free") ∧
    (∀ t, rawTier user = t → TIERS_values.contains t = true →
        getUserTier user = t) := by
  refine ⟨isLoggedIn_eq_false_of_no_markers user hid huid hem, ?_, ?_⟩
  · rintro ⟨hpt, ht, hp⟩
    simp [getUserTier, rawTier, hpt, ht, hp, firstTruthy, strTruthy, TIERS_values]
  · intro t hraw hmem
    have h3 : t = "free" ∨ t = "core" ∨ t = "edge" := by
      simpa [TIERS_values] using hmem
    rcases h3 with rfl | rfl | rfl <;> simp [getUserTier, hraw, TIERS_values]

theorem c2_amended_witness :
    isLoggedIn (some userAnonNoTier) = false ∧
    getUserTier (some userAnonNoTier) = "free" ∧
    getUserTier (some userTierCoreAnon) = "core" := by
  have h1 := c2_amended_anonymous_tier (some userAnonNoTier) rfl rfl rfl
  have h2 := c2_amended_anonymous_tier (some userTierCoreAnon) rfl rfl rfl
  exact ⟨h1.1, h1.2.1 ⟨rfl, rfl, rfl⟩, h2.2.2 "core" (by decide) (by decide)⟩

/-- C3 counterexample: the empty string is a non-null `minTier`, the user
`null` is not logged in, yet `meetsTier` returns `true` (the code treats
every JS-falsy `minTier`, including `""`, as public). -/
theorem c3_counterexample :
    (some "" : Option String) ≠ none ∧
    isLoggedIn none = false ∧
    meetsTier none (some "") = true := by decide

/-- C3 (amended): `meetsTier(user, null)` is true, and so is
`meetsTier(user, "")` — the code treats any JS-falsy `minTier` (null,
undefined, empty string) as public; for every truthy (non-null, non-empty)
`minTier`, `meetsTier` is false whenever `isLoggedIn` is false, and
otherwise equals `rank(getUserTier(user)) >= rank(minTier)` under the
ranking Free=1, Core=2, Edge=3, with unrecognized tier names ranked 0. -/
theorem c3_amended_meetsTier_spec (user : Option User) (t : String) :
    meetsTier user none = true ∧
    meetsTier user (some "") = true ∧
    (t ≠ "" → isLoggedIn user = false → meetsTier user (some t) = false) ∧
    (t ≠ "" → isLoggedIn user = true →
      meetsTier user (some t)
        = decide (rankSpec (getUserTier user) ≥ rankSpec t)) := by
  refine ⟨rfl, rfl, ?_, ?_⟩
  · intro ht hlog
    simp [meetsTier, strTruthy, ht, hlog]
  · intro ht hlog
    simp [meetsTier, strTruthy, ht, hlog, rankOr0_eq_rankSpec]

theorem c3_amended_witness :
    meetsTier (some userCoreSignedIn) none = true ∧
    meetsTier (some userCoreSignedIn) (some "edge") = false ∧
    meetsTier (some userCoreSignedIn) (some "edge")
      = decide (rankSpec (getUserTier (some userCoreSignedIn)) ≥ rankSpec "edge") := by
  have h := c3_amended_meetsTier_spec (some userCoreSignedIn) "edge"
  refine ⟨h.1, ?_, h.2.2.2 (by decide) (by decide)⟩
  rw [h.2.2.2 (by decide) (by decide)]
  decide

/-- C5 counterexample: for the user value `{tier: "core"}` (which carries no
identity marker) and feature `situation_simulator`, the lock state reason is
`sign_in_required`, not the `not_entitled` the claim requires. -/
theorem c5_counterexample :
    (getLockStateForFeature (some userTierCoreAnon) (some "situation_simulator") none).reason
      = some "sign_in_required" ∧
    (getLockStateForFeature (some userTierCoreAnon) (some "situation_simulator") none).reason
      ≠ some "not_entitled" := by decide

/-- C5 (amended): for a signed-in user with tier core — for example
`{id: "u1", tier: "core"}` — and feature `situation_simulator`,
`getLockStateForFeature` returns a locked state with reason `not_entitled`,
`requiredTier` edge and `currentTier` core.  (The user value `{tier: "core"}`
of the original claim carries no identity marker and therefore gets
`sign_in_required` instead.) -/
theorem c5_amended_core_user_simulator :
    getLockStateForFeature (some userCoreSignedIn) (some "situation_simulator") none
      = ⟨true, some "not_entitled", some ⟨"Upgrade to unlock", "/pricing"⟩,
         some "edge", some "core"⟩ := by decide

/-- C6: `getEntitlements` returns the explicit entitlements list whenever it
is present as a non-empty array, and otherwise the default entitlement set
of `getUserTier(user)`. -/
theorem c6_entitlements_override_or_default (user : Option User) :
    (∀ l, user.bind User.entitlements = some l → l ≠ [] →
        getEntitlements user = l) ∧
    (user.bind User.entitlements = none →
        getEntitlements user = (DEFAULT_ENTITLEMENTS (getUserTier user)).getD []) ∧
    (user.bind User.entitlements = some [] →
        getEntitlements user = (DEFAULT_ENTITLEMENTS (getUserTier user)).getD []) := by
  refine ⟨?_, ?_, ?_⟩
  · intro l hl hne
    have hlen : l.length > 0 := List.length_pos.mpr hne
    simp [getEntitlements, hl, hlen]
  · intro h
    simp [getEntitlements, h]
  · intro h
    simp [getEntitlements, h]

theorem c6_witness :
    getEntitlements (some ⟨some "u1", none, none, none, none, none, some ["downloads"]⟩)
      = ["downloads"] ∧
    getEntitlements (some userCoreSignedIn)
      = (DEFAULT_ENTITLEMENTS (getUserTier (some userCoreSignedIn))).getD [] := by
  refine ⟨?_, ?_⟩
  · exact (c6_entitlements_override_or_default
      (some ⟨some "u1", none, none, none, none, none, some ["downloads"]⟩)).1
      ["downloads"] rfl (by decide)
  · exact (c6_entitlements_override_or_default (some userCoreSignedIn)).2.1 rfl

theorem getUserTier_cases (user : Option User) :
    getUserTier user = "free" ∨ getUserTier user = "core" ∨
      getUserTier user = "edge" := by
  unfold getUserTier
  by_cases h1 : rawTier user == "strategic_edge" || rawTier user == "strategic-edge"
  · simp [h1]
  · by_cases h2 : TIERS_values.contains (rawTier user)
    · have h3 : rawTier user = "free" ∨ rawTier user = "core" ∨
          rawTier user = "edge" := by simpa [TIERS_values] using h2
      rcases h3 with h | h | h <;> simp [h, TIERS_values]
    · have h2m : rawTier user ∉ TIERS_values := by simpa using h2
      simp [h1, h2m]

/-- C7: unknown identifiers degrade rather than fail — a resolved tier field
that is neither a tier name nor a `strategic_edge` synonym yields Free; a
feature key outside the explicit list and every default set is not a
feature; and `meetsTier` on an unrecognized non-empty `minTier` is total,
returning exactly `isLoggedIn user` (the unknown tier ranks 0, which any
logged-in user meets). -/
theorem c7_unknown_identifiers_safe (user : Option User) (k t : String) :
    (TIERS_values.contains (rawTier user) = false →
      rawTier user ≠ "strategic_edge" → rawTier user ≠ "strategic-edge" →
      getUserTier user = "free") ∧
    ((∀ l, user.bind User.entitlements = some l → k ∉ l) →
      k ∉ (DEFAULT_ENTITLEMENTS "free").getD [] →
      k ∉ (DEFAULT_ENTITLEMENTS "core").getD [] →
      k ∉ (DEFAULT_ENTITLEMENTS "edge").getD [] →
      hasFeature user (some k) = false) ∧
    (TIERS_values.contains t = false → t ≠ "" →
      meetsTier user (some t) = isLoggedIn user) := by
  refine ⟨?_, ?_, ?_⟩
  · intro h1 h2 h3
    have h1m : rawTier user ∉ TIERS_values := by simpa using h1
    simp [getUserTier, h1m, h2, h3]
  · intro hexp hf hc he
    by_cases hk : k = ""
    · simp [hasFeature, strTruthy, hk]
    · have hdef : k ∉ (DEFAULT_ENTITLEMENTS (getUserTier user)).getD [] := by
        rcases getUserTier_cases user with h | h | h <;> rw [h] <;> assumption
      have hent : k ∉ getEntitlements user := by
        unfold getEntitlements
        cases hE : user.bind User.entitlements with
        | none => exact hdef
        | some l =>
          by_cases hlen : l.length > 0
          · simpa [hlen] using hexp l hE
          · simpa [hlen] using hdef
      simp [hasFeature, strTruthy, hk]
      simpa using hent
  · intro hmem ht
    have hrt : TIER_RANK t = none := by
      have h3 : ¬(t = "free" ∨ t = "core" ∨ t = "edge") := by
        simpa [TIERS_values] using hmem
      push_neg at h3
      simp [TIER_RANK, h3.1, h3.2.1, h3.2.2]
    cases hlog : isLoggedIn user with
    | false => simp [meetsTier, strTruthy, ht, hlog]
    | true => simp [meetsTier, strTruthy, ht, hlog, rankOr0, hrt]

theorem c7_witness :
    getUserTier (some ⟨some "u1", none, none, some "platinum", none, none, none⟩) = "free" ∧
    hasFeature (some ⟨some "u1", none, none, some "platinum", none, none, none⟩)
      (some "time_travel") = false ∧
    meetsTier (some ⟨some "u1", none, none, some "platinum", none, none, none⟩)
      (some "platinum")
      = isLoggedIn (some ⟨some "u1", none, none, some "platinum", none, none, none⟩) := by
  have h := c7_unknown_identifiers_safe
    (some ⟨some "u1", none, none, some "platinum", none, none, none⟩)
    "time_travel" "platinum"
  refine ⟨h.1 (by decide) (by decide) (by decide), ?_, h.2.2 (by decide) (by decide)⟩
  refine h.2.1 ?_ (by decide) (by decide) (by decide)
  intro l hl
  simp at hl

/-- C8: whenever the stored value under the profile key is absent, fails to
parse as JSON (`JSON.parse` throws), or parses to a value that is not a
non-null object, `getStoredUser` returns `null`; the thrown `SyntaxError` is
caught inside the function, so the result is always defined. -/
theorem c8_malformed_profile_is_absent (store : Option String)
    (jsonParse : String → Except String JsValue) :
    (store = none → getStoredUser store jsonParse = none) ∧
    (∀ raw e, store = some raw → jsonParse raw = Except.error e →
      getStoredUser store jsonParse = none) ∧
    (∀ raw v, store = some raw → jsonParse raw = Except.ok v →
      (jsTruthy v && isObjType v) = false →
      getStoredUser store jsonParse = none) := by
  refine ⟨?_, ?_, ?_⟩
  · intro h
    simp [getStoredUser, h]
  · intro raw e hs hp
    subst hs
    by_cases hraw : raw = ""
    · simp [getStoredUser, hraw]
    · simp [getStoredUser, hraw, hp]
  · intro raw v hs hp hv
    subst hs
    by_cases hraw : raw = ""
    · simp [getStoredUser, hraw]
    · simp [getStoredUser, hraw, hp, hv]

theorem c8_witness :
    getStoredUser (some "not json") (fun _ => Except.error "SyntaxError") = none ∧
    getStoredUser (some "42") (fun _ => Except.ok (JsValue.jsNum 42)) = none ∧
    getStoredUser none (fun _ => Except.error "SyntaxError") = none := by
  refine ⟨?_, ?_, ?_⟩
  · exact (c8_malformed_profile_is_absent (some "not json")
      (fun _ => Except.error "SyntaxError")).2.1 "not json" "SyntaxError" rfl rfl
  · exact (c8_malformed_profile_is_absent (some "42")
      (fun _ => Except.ok (JsValue.jsNum 42))).2.2 "42" (JsValue.jsNum 42) rfl rfl rfl
  · exact (c8_malformed_profile_is_absent none
      (fun _ => Except.error "SyntaxError")).1 rfl

/-- C9: round-trip over the profile store.  For a truthy object value whose
serialization is a non-empty string that parses back to it (the behaviour of
`JSON.stringify`/`JSON.parse` on any JSON-serializable non-null object),
`setStoredUser` then `getStoredUser` yields the same record; clearing the
store, or storing a null user, makes the next `getStoredUser` return
`null`. -/
theorem c9_store_roundtrip (store : Option String) (v : JsValue)
    (jsonParse : String → Except String JsValue)
    (jsonStringify : JsValue → String) :
    (jsTruthy v = true → isObjType v = true → jsonStringify v ≠ "" →
      jsonParse (jsonStringify v) = Except.ok v →
      getStoredUser (setStoredUser store jsonStringify (some v)) jsonParse
        = some v) ∧
    getStoredUser (clearStoredUser store) jsonParse = none ∧
    getStoredUser (setStoredUser store jsonStringify none) jsonParse = none := by
  refine ⟨?_, rfl, rfl⟩
  intro htr hobj hne hparse
  simp [setStoredUser, htr, getStoredUser, hne, hparse, hobj]

theorem c9_witness :
    getStoredUser
      (setStoredUser none (fun _ => "JSON") (some (JsValue.jsObj [("tier", JsValue.jsStr "core")])))
      (fun _ => Except.ok (JsValue.jsObj [("tier", JsValue.jsStr "core")]))
      = some (JsValue.jsObj [("tier", JsValue.jsStr "core")]) ∧
    getStoredUser (clearStoredUser (some "old"))
      (fun _ => Except.ok (JsValue.jsObj [("tier", JsValue.jsStr "core")])) = none := by
  have h := c9_store_roundtrip none (JsValue.jsObj [("tier", JsValue.jsStr "core")])
    (fun _ => Except.ok (JsValue.jsObj [("tier", JsValue.jsStr "core")]))
    (fun _ => "JSON")
  refine ⟨h.1 rfl rfl (by decide) rfl, ?_⟩
  exact (c9_store_roundtrip (some "old") (JsValue.jsObj [("tier", JsValue.jsStr "core")])
    (fun _ => Except.ok (JsValue.jsObj [("tier", JsValue.jsStr "core")]))
    (fun _ => "JSON")).2.1

theorem mem_of_head_some {α : Type} {l : List α} {x : α}
    (h : l.head? = some x) : x ∈ l := by
  cases l with
  | nil => simp at h
  | cons a tl =>
    simp [List.head?] at h
    subst h
    exact List.mem_cons_self a tl

/-- The first element of the descending-by-length sort is a length maximum
of the input list. -/
theorem head_insertionSort_max (l : List Policy) (x : Policy)
    (h : (l.insertionSort byMatchLen).head? = some x) :
    ∀ y ∈ l, byMatchLen x y := by
  intro y hy
  have hy2 : y ∈ l.insertionSort byMatchLen := by simpa using hy
  have hsort := List.sorted_insertionSort byMatchLen l
  cases hl : l.insertionSort byMatchLen with
  | nil => rw [hl] at h; simp at h
  | cons a tl =>
    rw [hl] at h hy2 hsort
    simp [List.head?] at h
    subst h
    rcases List.mem_cons.mp hy2 with rfl | hmem
    · exact Nat.le_refl _
    · exact (List.sorted_cons.mp hsort).1 y hmem

/-- No entry of the concrete route table matches the empty pathname. -/
theorem no_route_match_empty : ∀ q ∈ ROUTE_POLICY, matchesPath "" q = false := by
  decide

/-- If some table entry matches the pathname, `getRoutePolicy` returns an
entry. -/
theorem exists_policy_of_match (path : String) (q : Policy)
    (hq : q ∈ ROUTE_POLICY) (hmq : matchesPath path q = true) :
    ∃ r, getRoutePolicy path = some r := by
  have hpne : path ≠ "" := by
    rintro rfl
    rw [no_route_match_empty q hq] at hmq
    cases hmq
  have hb : (path == "") = false := beq_eq_false_iff_ne.mpr hpne
  have hqF : q ∈ ROUTE_POLICY.filter (matchesPath path) :=
    List.mem_filter.mpr ⟨hq, hmq⟩
  have hqS : q ∈ (ROUTE_POLICY.filter (matchesPath path)).insertionSort byMatchLen := by
    simpa using hqF
  rw [getRoutePolicy, hb]
  cases hl : (ROUTE_POLICY.filter (matchesPath path)).insertionSort byMatchLen with
  | nil => rw [hl] at hqS; cases hqS
  | cons a tl => exact ⟨a, rfl⟩

/-- C4: whenever `getRoutePolicy` returns an entry, it is an entry of the
route table that matches the pathname (exactly or as a prefix) and its match
string is at least as long as that of every other matching entry; whenever
some entry matches, an entry is returned; and the concrete pathname
`/tools/framework-1` resolves to the `/tools/framework-` entry with minimum
tier core. -/
theorem c4_route_policy_longest_match (path : String) (p : Policy)
    (h : getRoutePolicy path = some p) :
    p ∈ ROUTE_POLICY ∧ matchesPath path p = true ∧
    (∀ q ∈ ROUTE_POLICY, matchesPath path q = true →
        q.matchS.length ≤ p.matchS.length) ∧
    (∀ path2 q, q ∈ ROUTE_POLICY → matchesPath path2 q = true →
        ∃ r, getRoutePolicy path2 = some r) ∧
    getRoutePolicy "/tools/framework-1" = some ⟨"/tools/framework-", some "core"⟩ := by
  by_cases hpath : path == ""
  · rw [getRoutePolicy, if_pos hpath] at h
    cases h
  · rw [getRoutePolicy, if_neg hpath] at h
    have hmax := head_insertionSort_max _ p h
    have hmemF : p ∈ ROUTE_POLICY.filter (matchesPath path) := by
      simpa using mem_of_head_some h
    have hpm := List.mem_filter.mp hmemF
    refine ⟨hpm.1, hpm.2, ?_, ?_, by decide⟩
    · intro q hq hmq
      exact hmax q (List.mem_filter.mpr ⟨hq, hmq⟩)
    · intro path2 q hq hmq
      exact exists_policy_of_match path2 q hq hmq

theorem c4_witness :
    (⟨"/edge", some "edge"⟩ : Policy) ∈ ROUTE_POLICY ∧
    matchesPath "/edge/briefing" ⟨"/edge", some "edge"⟩ = true ∧
    (∀ q ∈ ROUTE_POLICY, matchesPath "/edge/briefing" q = true →
        q.matchS.length ≤ (Policy.mk "/edge" (some "edge")).matchS.length) ∧
    (∀ path2 q, q ∈ ROUTE_POLICY → matchesPath path2 q = true →
        ∃ r, getRoutePolicy path2 = some r) ∧
    getRoutePolicy "/tools/framework-1" = some ⟨"/tools/framework-", some "core"⟩ :=
  c4_route_policy_longest_match "/edge/briefing" ⟨"/edge", some "edge"⟩ (by decide)

/-- C10: every pathname beginning with `/` matches the `/` entry of the
route table, so `getRoutePolicy` returns an entry for it; `getRoutePolicy`
returns `none` only for an empty pathname or one not beginning with `/`;
and the default-allow branch of `canAccessRoute` is exactly the `none`
case. -/
theorem c10_root_policy_covers_slash_paths (user : Option User) (path : String) :
    (jsStartsWith path "/" = true → matchesPath path ⟨"/", none⟩ = true) ∧
    (jsStartsWith path "/" = true → ∃ p, getRoutePolicy path = some p) ∧
    (getRoutePolicy path = none → path = "" ∨ jsStartsWith path "/" = false) ∧
    (getRoutePolicy path = none → canAccessRoute user path = true) := by
  have hroot : (⟨"/", none⟩ : Policy) ∈ ROUTE_POLICY := by decide
  have hm : jsStartsWith path "/" = true → matchesPath path ⟨"/", none⟩ = true := by
    intro h
    simp [matchesPath, h]
  refine ⟨hm, ?_, ?_, ?_⟩
  · intro h
    exact exists_policy_of_match path ⟨"/", none⟩ hroot (hm h)
  · intro hn
    by_cases hsw : jsStartsWith path "/" = true
    · rcases exists_policy_of_match path ⟨"/", none⟩ hroot (hm hsw) with ⟨r, hr⟩
      rw [hn] at hr
      cases hr
    · exact Or.inr (Bool.not_eq_true _ ▸ hsw)
  · intro hn
    simp [canAccessRoute, hn]

theorem c10_witness :
    (∃ p, getRoutePolicy "/pricing" = some p) ∧
    (getRoutePolicy "no-slash" = none → ("no-slash" : String) = "" ∨
      jsStartsWith "no-slash" "/" = false) := by
  refine ⟨(c10_root_policy_covers_slash_paths none "/pricing").2.1 (by decide), ?_⟩
  exact (c10_root_policy_covers_slash_paths none "no-slash").2.2.1

end TEP
